import Mathlib

/-!
Shallow embedding of `src/app.py` (telegram-approval-bot).

The program keeps a single in-memory Python dict `approval_db` mapping a
machine id (string) to an approval state (string).  Three HTTP handlers
touch it:

* `check_status(machine_id)` — `approval_db.get(machine_id, "not_found")`.
* `notify(request)` — on `event == "Permission Requested"` it reads
  `user` and `machine_id` (with defaults), writes
  `approval_db[machine_id] = "pending"`, then sends a Telegram message
  with the two inline buttons `approve_{machine_id}` / `deny_{machine_id}`
  (the send is NOT wrapped in try/except, so a transport error escapes
  the handler); any other event sends the raw data with no buttons.
* `telegram_webhook(update)` — inside one big try/except: a
  `callback_query` is acknowledged, its `data` split on the first `_`
  into `(action, machine_id)`, and `approval_db[machine_id]` is set to
  `"approved"` / `"denied"` when the action matches; a text message
  `/start` echoes the chat id, and `/clear_cache` from `ADMIN_CHAT_ID`
  clears the dict.  The handler always returns `{"status": "ok"}`.

The dict is modelled as an association list with Python-dict update
semantics (overwrite in place when the key is present, append otherwise).
Transport failures are modelled by boolean flags marking which bot call
raises; a Python exception escaping a handler is `NotifyOutcome.raised`.
-/

/-- The `approval_db` dict: machine id keyed approval-state strings. -/
abbrev ApprovalDb := List (String × String)

/-- Python `d.get(key, default)`: the value stored at `key`, else `default`. -/
def dbGet : ApprovalDb → String → String → String
  | [], _, dflt => dflt
  | (k, v) :: rest, key, dflt => if k = key then v else dbGet rest key dflt

/-- True when the dict has an entry for `key` (Python `key in d`). -/
def dbHasKey : ApprovalDb → String → Bool
  | [], _ => false
  | (k, _) :: rest, key => k = key || dbHasKey rest key

/-- Python `d[key] = v`: overwrite in place when present, append otherwise. -/
def dbSet (db : ApprovalDb) (key v : String) : ApprovalDb :=
  if dbHasKey db key then
    db.map (fun p => if p.1 = key then (key, v) else p)
  else
    db ++ [(key, v)]

/-- Python `s.split(sep, 1)` helper on characters: the text before the first
occurrence of `sep` and the text after it, or `none` when `sep` is absent
(in which case the two-variable unpacking in the source raises). -/
def splitOnceAux (sep : Char) : List Char → List Char → Option (List Char × List Char)
  | _, [] => none
  | acc, c :: cs =>
    if c = sep then some (acc.reverse, cs) else splitOnceAux sep (c :: acc) cs

/-- `action, machine_id = callback_data.split("_", 1)`: `some (before, after)`
on the first separator, `none` when the separator is missing. -/
def splitOnce (s : String) (sep : Char) : Option (String × String) :=
  match splitOnceAux sep [] s.data with
  | none => none
  | some (a, b) => some (String.mk a, String.mk b)

/-- One inline keyboard button (`text`, `callback_data`). -/
structure Button where
  text : String
  callback_data : String
deriving DecidableEq, Repr

/-- The JSON body posted to `/notify`, projected to the fields the handler
reads: `data.get("event")`, `data.get("user", ...)`, `data.get("machine_id", ...)`. -/
structure NotifyData where
  event : Option String
  user : Option String
  machine_id : Option String
deriving DecidableEq, Repr

/-- A message delivered to the admin chat by the `/notify` handler. -/
inductive SentMessage where
  /-- `send_message` with the permission-request text and the inline keyboard. -/
  | withButtons (text : String) (buttons : List Button)
  /-- `send_message` of the raw data as a generic message, no buttons. -/
  | generic (data : NotifyData)
deriving DecidableEq, Repr

/-- Outcome of one `/notify` call as the submitter sees it: either the
JSON status the handler returns, or `raised` — the uncaught Telegram
exception escaped the handler (the framework turns it into an error
response, not a success acknowledgment). -/
inductive NotifyOutcome where
  | ok (status : String)
  | raised
deriving DecidableEq, Repr

/-- Result of one `/notify` call: the dict afterwards, the messages that
were delivered, and the handler outcome. -/
structure NotifyResult where
  db : ApprovalDb
  sent : List SentMessage
  response : NotifyOutcome
deriving DecidableEq, Repr

/-- The `/notify` handler.  `sendFails` marks the `send_message` call
raising a transport error; there is no try/except around it in the source,
so in that case the exception escapes (`NotifyOutcome.raised`).  The dict write
happens before the send and is never rolled back. -/
def notify (db : ApprovalDb) (data : NotifyData) (sendFails : Bool) : NotifyResult :=
  if data.event = some "Permission Requested" then
    let user_name := data.user.getD "Unknown User"
    let machine_id := data.machine_id.getD "Unknown ID"
    let db' := dbSet db machine_id "pending"
    let text := "❗️ New Permission Request ❗️\n\nUser: " ++ user_name
      ++ "\nMachine ID: " ++ machine_id
    let keyboard := [⟨"✅ Approve", "approve_" ++ machine_id⟩,
                     ⟨"❌ Deny", "deny_" ++ machine_id⟩]
    if sendFails then ⟨db', [], .raised⟩
    else ⟨db', [.withButtons text keyboard], .ok "permission_request_received"⟩
  else
    if sendFails then ⟨db, [], .raised⟩
    else ⟨db, [.generic data], .ok "generic_notification_sent"⟩

/-- The `check_status/{machine_id}` handler:
`approval_db.get(machine_id, "not_found")`. -/
def check_status (db : ApprovalDb) (machine_id : String) : String :=
  dbGet db machine_id "not_found"

/-- A Telegram update, projected to the fields `telegram_webhook` reads. -/
inductive Update where
  /-- `callback_query` with its `data` tag, chat id and message id. -/
  | callback (data : String) (chat_id : Int) (message_id : Nat)
  /-- a `message` carrying `text` from chat `chat_id`. -/
  | message (chat_id : Int) (text : String)
  /-- any other update shape (no `callback_query`, no text message). -/
  | other
deriving DecidableEq, Repr

/-- One outbound Telegram-bot call made by `telegram_webhook`. -/
inductive BotCall where
  /-- `answer_callback_query` acknowledging the button press. -/
  | answerCallback
  /-- `edit_message_text(text, chat_id, message_id)`. -/
  | editMessage (text : String) (chat_id : Int) (message_id : Nat)
  /-- `send_message(chat_id, text)`. -/
  | sendMessage (chat_id : Int) (text : String)
deriving DecidableEq, Repr

/-- Result of one `/telegram` webhook call: the dict afterwards, the bot
calls that succeeded, and the HTTP response (always `"ok"`: the whole
body is wrapped in try/except and ends in `return {"status": "ok"}`). -/
structure WebhookResult where
  db : ApprovalDb
  calls : List BotCall
  response : String
deriving DecidableEq, Repr

/-- The `/telegram` webhook handler.  `ackFails`, `editFails` and
`sendFails` mark the corresponding bot call raising a transport error;
every exception (including the ValueError from unpacking a separator-free
`callback_data`) is caught by the surrounding try/except, after which the
handler still returns `{"status": "ok"}`. -/
def telegram_webhook (db : ApprovalDb) (adminChatId : Int) (u : Update)
    (ackFails editFails sendFails : Bool) : WebhookResult :=
  match u with
  | .callback data chat_id message_id =>
    if ackFails then ⟨db, [], "ok"⟩
    else
      match splitOnce data '_' with
      | none => ⟨db, [.answerCallback], "ok"⟩
      | some (action, machine_id) =>
        let user_info := "Request for Machine ID: " ++ machine_id
        if action = "approve" then
          let db' := dbSet db machine_id "approved"
          if editFails then ⟨db', [.answerCallback], "ok"⟩
          else ⟨db', [.answerCallback,
            .editMessage ("✅ Approved\n\n" ++ user_info) chat_id message_id], "ok"⟩
        else if action = "deny" then
          let db' := dbSet db machine_id "denied"
          if editFails then ⟨db', [.answerCallback], "ok"⟩
          else ⟨db', [.answerCallback,
            .editMessage ("❌ Denied\n\n" ++ user_info) chat_id message_id], "ok"⟩
        else ⟨db, [.answerCallback], "ok"⟩
  | .message chat_id text =>
    if text = "/start" then
      if sendFails then ⟨db, [], "ok"⟩
      else ⟨db, [.sendMessage chat_id
        ("Hello! I am the remote approval bot (v18-bulletproof). Your Chat ID is: "
          ++ toString chat_id)], "ok"⟩
    else if text = "/clear_cache" ∧ chat_id = adminChatId then
      if sendFails then ⟨[], [], "ok"⟩
      else ⟨[], [.sendMessage chat_id "✅ Server cache cleared."], "ok"⟩
    else ⟨db, [], "ok"⟩
  | .other => ⟨db, [], "ok"⟩

/-- One externally triggered mutation of `approval_db`: a `/notify` call or
a `/telegram` webhook call (`check_status` and `healthz` never write). -/
inductive Op where
  | notifyOp (data : NotifyData) (sendFails : Bool)
  | webhookOp (u : Update) (ackFails editFails sendFails : Bool)
deriving DecidableEq, Repr

/-- The dict after one operation. -/
def applyOp (admin : Int) (db : ApprovalDb) : Op → ApprovalDb
  | .notifyOp d f => (notify db d f).db
  | .webhookOp u a e s => (telegram_webhook db admin u a e s).db

/-- The dict after a whole history of operations, starting from the empty
dict the module initializes (`approval_db = {}`). -/
def runOps (admin : Int) (ops : List Op) : ApprovalDb :=
  ops.foldl (applyOp admin) []

/-- The three approval-state strings the program ever stores. -/
def AllowedState (s : String) : Prop :=
  s = "pending" ∨ s = "approved" ∨ s = "denied"

/-- Every value in the dict is one of the three approval-state strings. -/
def WellFormed (db : ApprovalDb) : Prop :=
  ∀ p ∈ db, AllowedState p.2

/-! ## Store lemmas -/

theorem dbGet_of_hasKey_eq_false (db : ApprovalDb) (key dflt : String)
    (h : dbHasKey db key = false) : dbGet db key dflt = dflt := by
  induction db with
  | nil => rfl
  | cons p rest ih =>
    obtain ⟨k, v⟩ := p
    simp [dbHasKey] at h
    simp [dbGet, h.1, ih h.2]

theorem dbGet_append_single_self (db : ApprovalDb) (key v dflt : String)
    (h : dbHasKey db key = false) :
    dbGet (db ++ [(key, v)]) key dflt = v := by
  induction db with
  | nil => simp [dbGet]
  | cons p rest ih =>
    obtain ⟨k, w⟩ := p
    simp [dbHasKey] at h
    simp [dbGet, h.1, ih h.2]

theorem dbGet_map_overwrite_self (db : ApprovalDb) (key v dflt : String)
    (h : dbHasKey db key = true) :
    dbGet (db.map (fun p => if p.1 = key then (key, v) else p)) key dflt = v := by
  induction db with
  | nil => simp [dbHasKey] at h
  | cons p rest ih =>
    obtain ⟨k, w⟩ := p
    by_cases hk : k = key
    · subst hk
      rw [List.map_cons, if_pos rfl]
      simp [dbGet]
    · rw [List.map_cons, if_neg hk]
      simp [dbHasKey, hk] at h
      simp [dbGet, hk, ih h]

theorem dbGet_dbSet_self (db : ApprovalDb) (key v dflt : String) :
    dbGet (dbSet db key v) key dflt = v := by
  unfold dbSet
  by_cases h : dbHasKey db key = true
  · simp only [h, if_true]
    exact dbGet_map_overwrite_self db key v dflt h
  · rw [Bool.not_eq_true] at h
    simp only [h, Bool.false_eq_true, if_false]
    exact dbGet_append_single_self db key v dflt h

theorem wellFormed_nil : WellFormed [] := by
  intro p hp
  simp at hp

theorem wellFormed_dbSet (db : ApprovalDb) (key v : String)
    (hv : AllowedState v) (h : WellFormed db) : WellFormed (dbSet db key v) := by
  unfold dbSet
  by_cases hk : dbHasKey db key = true
  · simp only [hk, if_true]
    intro p hp
    rw [List.mem_map] at hp
    obtain ⟨q, hq, rfl⟩ := hp
    by_cases h1 : q.1 = key
    · simp [h1, hv]
    · simpa [h1] using h q hq
  · rw [Bool.not_eq_true] at hk
    simp only [hk, Bool.false_eq_true, if_false]
    intro p hp
    rcases List.mem_append.mp hp with h1 | h1
    · exact h p h1
    · simp at h1
      subst h1
      exact hv

theorem dbGet_allowed_or_default (db : ApprovalDb) (key dflt : String)
    (h : WellFormed db) :
    AllowedState (dbGet db key dflt) ∨ dbGet db key dflt = dflt := by
  induction db with
  | nil => exact Or.inr rfl
  | cons p rest ih =>
    obtain ⟨k, v⟩ := p
    by_cases hk : k = key
    · left
      simp only [dbGet, hk, if_true]
      exact h (key, v) (by simp [hk])
    · simp only [dbGet, hk, if_false]
      exact ih fun q hq => h q (List.mem_cons_of_mem _ hq)

/-! ## Handler projection lemmas -/

theorem notify_db_eq (db : ApprovalDb) (data : NotifyData) (f : Bool) :
    (notify db data f).db
      = if data.event = some "Permission Requested"
        then dbSet db (data.machine_id.getD "Unknown ID") "pending"
        else db := by
  unfold notify
  split
  · cases f <;> rfl
  · cases f <;> rfl

theorem telegram_webhook_db_eq (db : ApprovalDb) (admin : Int) (u : Update)
    (a e s : Bool) :
    (telegram_webhook db admin u a e s).db
      = (match u with
        | .callback data _ _ =>
          if a then db
          else
            match splitOnce data '_' with
            | none => db
            | some (action, machine_id) =>
              if action = "approve" then dbSet db machine_id "approved"
              else if action = "deny" then dbSet db machine_id "denied"
              else db
        | .message chat text =>
          if text = "/start" then db
          else if text = "/clear_cache" ∧ chat = admin then [] else db
        | .other => db) := by
  cases u with
  | callback d c m =>
    cases a with
    | false =>
      cases hs : splitOnce d '_' with
      | none => simp [telegram_webhook, hs]
      | some p =>
        obtain ⟨act, mid⟩ := p
        by_cases h1 : act = "approve"
        · cases e <;> simp [telegram_webhook, hs, h1]
        · by_cases h2 : act = "deny"
          · cases e <;> simp [telegram_webhook, hs, h1, h2]
          · simp [telegram_webhook, hs, h1, h2]
    | true => simp [telegram_webhook]
  | message c t =>
    by_cases h1 : t = "/start"
    · cases s <;> simp [telegram_webhook, h1]
    · by_cases h2 : t = "/clear_cache" ∧ c = admin
      · cases s <;> simp [telegram_webhook, h1, h2]
      · simp [telegram_webhook, h1, h2]
  | other => rfl

theorem telegram_webhook_response_ok (db : ApprovalDb) (admin : Int) (u : Update)
    (a e s : Bool) :
    (telegram_webhook db admin u a e s).response = "ok" := by
  cases u with
  | callback d c m =>
    cases a with
    | false =>
      cases hs : splitOnce d '_' with
      | none => simp [telegram_webhook, hs]
      | some p =>
        obtain ⟨act, mid⟩ := p
        by_cases h1 : act = "approve"
        · cases e <;> simp [telegram_webhook, hs, h1]
        · by_cases h2 : act = "deny"
          · cases e <;> simp [telegram_webhook, hs, h1, h2]
          · simp [telegram_webhook, hs, h1, h2]
    | true => simp [telegram_webhook]
  | message c t =>
    by_cases h1 : t = "/start"
    · cases s <;> simp [telegram_webhook, h1]
    · by_cases h2 : t = "/clear_cache" ∧ c = admin
      · cases s <;> simp [telegram_webhook, h1, h2]
      · simp [telegram_webhook, h1, h2]
  | other => rfl

/-! ## Invariant preservation -/

theorem wellFormed_notify (db : ApprovalDb) (data : NotifyData) (f : Bool)
    (h : WellFormed db) : WellFormed (notify db data f).db := by
  rw [notify_db_eq]
  split
  · exact wellFormed_dbSet db _ "pending" (Or.inl rfl) h
  · exact h

theorem wellFormed_webhook (db : ApprovalDb) (admin : Int) (u : Update)
    (a e s : Bool) (h : WellFormed db) :
    WellFormed (telegram_webhook db admin u a e s).db := by
  rw [telegram_webhook_db_eq]
  cases u with
  | callback d c m =>
    cases a with
    | false =>
      cases hs : splitOnce d '_' with
      | none => simpa [hs] using h
      | some p =>
        obtain ⟨act, mid⟩ := p
        by_cases h1 : act = "approve"
        · simpa [hs, h1] using
            wellFormed_dbSet db mid "approved" (Or.inr (Or.inl rfl)) h
        · by_cases h2 : act = "deny"
          · simpa [hs, h1, h2] using
              wellFormed_dbSet db mid "denied" (Or.inr (Or.inr rfl)) h
          · simpa [hs, h1, h2] using h
    | true => simpa using h
  | message c t =>
    by_cases h1 : t = "/start"
    · simpa [h1] using h
    · by_cases h2 : t = "/clear_cache" ∧ c = admin
      · simpa [h1, h2] using wellFormed_nil
      · simpa [h1, h2] using h
  | other => exact h

theorem wellFormed_applyOp (admin : Int) (db : ApprovalDb) (op : Op)
    (h : WellFormed db) : WellFormed (applyOp admin db op) := by
  cases op with
  | notifyOp d f => exact wellFormed_notify db d f h
  | webhookOp u a e s => exact wellFormed_webhook db admin u a e s h

theorem wellFormed_foldl (admin : Int) (ops : List Op) :
    ∀ db : ApprovalDb, WellFormed db →
      WellFormed (ops.foldl (applyOp admin) db) := by
  induction ops with
  | nil => exact fun db h => h
  | cons op rest ih =>
    intro db h
    exact ih _ (wellFormed_applyOp admin db op h)

theorem wellFormed_runOps (admin : Int) (ops : List Op) :
    WellFormed (runOps admin ops) :=
  wellFormed_foldl admin ops [] wellFormed_nil

/-! ## Claim theorems -/

/-- C1: refuted on the code.  The claim says a decide on an already
terminal request leaves the store unmutated (first applied outcome kept)
and is reported distinctly (`already_decided`).  In the code the webhook
assigns `approval_db[machine_id]` unconditionally: with `mac-001` already
`"approved"`, a `deny_mac-001` button press overwrites the state to
`"denied"` and produces exactly the ordinary success edit
(`❌ Denied ...`) — no distinct already-decided report exists. -/
theorem C1_second_decide_overwrites :
    telegram_webhook [("mac-001", "approved")] 42
        (.callback "deny_mac-001" 42 1) false false false
      = ⟨[("mac-001", "denied")],
         [.answerCallback,
          .editMessage "❌ Denied\n\nRequest for Machine ID: mac-001" 42 1],
         "ok"⟩ := by decide

/-- C2: refuted on the code.  The claim says the approve/deny tags carry a
system-generated opaque request id distinct from the subject id.  In the
code the tags are `approve_{machine_id}` / `deny_{machine_id}`: the id
component of the delivered tag is exactly the caller-supplied subject id
`mac-001`, and no other id is ever generated. -/
theorem C2_action_tag_carries_subject_id :
    (notify [] ⟨some "Permission Requested", some "alice", some "mac-001"⟩
        false).sent
      = [.withButtons
          "❗️ New Permission Request ❗️\n\nUser: alice\nMachine ID: mac-001"
          [⟨"✅ Approve", "approve_mac-001"⟩, ⟨"❌ Deny", "deny_mac-001"⟩]]
    ∧ splitOnce "approve_mac-001" '_' = some ("approve", "mac-001") := by decide

/-- C3: refuted on the code.  The claim says a decide on an id absent from
the store returns `not_found` and leaves the store completely unchanged.
In the code, an `approve_ghost` button press on an empty store inserts a
brand-new entry `("ghost", "approved")` and reports ordinary success. -/
theorem C3_unknown_id_creates_entry :
    (telegram_webhook [] 42 (.callback "approve_ghost" 42 1)
        false false false).db = [("ghost", "approved")]
    ∧ check_status [] "ghost" = "not_found" := by decide

/-- C4: refuted on the code (partially).  The claim says the `/notify`
entry point returns a success acknowledgment even when delivery fails,
the transport error being caught at the point of call.  In the code the
`send_message` call in `notify` is not wrapped in try/except, so the
exception escapes the handler (`raised`, an error response to the
submitter); the created request does remain `pending` as claimed. -/
theorem C4_delivery_failure_escapes_notify :
    (notify [] ⟨some "Permission Requested", some "alice", some "mac-001"⟩
        true).response = .raised
    ∧ check_status
        (notify [] ⟨some "Permission Requested", some "alice", some "mac-001"⟩
          true).db "mac-001" = "pending" := by decide

/-- C5: refuted on the code.  The claim says a permission-request event
missing the subject identifier is rejected at the boundary before touching
the store.  In the code `data.get("machine_id", "Unknown ID")` substitutes
a default and the handler inserts `("Unknown ID", "pending")` into the
store. -/
theorem C5_missing_machine_id_touches_store :
    (notify [] ⟨some "Permission Requested", some "alice", none⟩ false).db
      = [("Unknown ID", "pending")] := by decide

/-- C6: for every valid `Permission Requested` event carrying a machine id,
the handler stores `pending` for that machine id (whether or not delivery
then fails), and an immediately following `check_status` for that machine
id returns `"pending"`. -/
theorem C6_create_then_status_pending (db : ApprovalDb) (user : Option String)
    (m : String) (f : Bool) :
    check_status (notify db ⟨some "Permission Requested", user, some m⟩ f).db m
      = "pending" := by
  have hdb : (notify db ⟨some "Permission Requested", user, some m⟩ f).db
      = dbSet db m "pending" := by
    rw [notify_db_eq]
    simp
  rw [check_status, hdb]
  exact dbGet_dbSet_self db m "pending" "not_found"

/-- C7: an operator callback whose tag does not decode to `approve` or
`deny` — including tags with no `_` separator, where the unpacking raises
and the try/except catches — leaves the store unchanged, and the handler
still answers `"ok"` instead of raising to the caller. -/
theorem C7_unrecognized_action_no_mutation (db : ApprovalDb)
    (admin chat : Int) (mid : Nat) (tag : String) (a e s : Bool)
    (h : splitOnce tag '_' = none
      ∨ ∃ act rest, splitOnce tag '_' = some (act, rest)
          ∧ act ≠ "approve" ∧ act ≠ "deny") :
    (telegram_webhook db admin (.callback tag chat mid) a e s).db = db
    ∧ (telegram_webhook db admin (.callback tag chat mid) a e s).response
        = "ok" := by
  refine ⟨?_, telegram_webhook_response_ok db admin _ a e s⟩
  rw [telegram_webhook_db_eq]
  cases a with
  | true => simp
  | false =>
    rcases h with h | ⟨act, rest, h, h1, h2⟩
    · simp [h]
    · simp [h, h1, h2]

theorem C7_unrecognized_action_no_mutation_witness :
    (telegram_webhook [("mac-001", "pending")] 42 (.callback "restart" 42 1)
        false false false).db = [("mac-001", "pending")]
    ∧ (telegram_webhook [("mac-001", "pending")] 42 (.callback "restart" 42 1)
        false false false).response = "ok" :=
  C7_unrecognized_action_no_mutation [("mac-001", "pending")] 42 42 1
    "restart" false false false (Or.inl (by decide))

/-- C8: `/clear_cache` empties the store exactly when it comes from the
admin chat: the resulting store is `[]` when `chat = admin` (so every
subsequent status query answers `"not_found"`), and is the unchanged
store otherwise (so every status query answers as before). -/
theorem C8_clear_cache_admin_only (db : ApprovalDb) (admin chat : Int)
    (a e s : Bool) :
    (telegram_webhook db admin (.message chat "/clear_cache") a e s).db
        = (if chat = admin then [] else db)
    ∧ ∀ m : String,
        check_status
            (telegram_webhook db admin (.message chat "/clear_cache") a e s).db m
          = (if chat = admin then "not_found" else check_status db m) := by
  have hdb : (telegram_webhook db admin (.message chat "/clear_cache") a e s).db
      = if chat = admin then [] else db := by
    rw [telegram_webhook_db_eq]
    by_cases h : chat = admin <;> simp [h]
  refine ⟨hdb, fun m => ?_⟩
  rw [hdb]
  by_cases h : chat = admin <;> simp [h, check_status, dbGet]

/-- C9: a status query for a machine id with no entry in the store returns
the distinct `"not_found"` value (the handler is a total function of the
store — it cannot raise). -/
theorem C9_unknown_subject_not_found (db : ApprovalDb) (m : String)
    (h : dbHasKey db m = false) : check_status db m = "not_found" :=
  dbGet_of_hasKey_eq_false db m "not_found" h

theorem C9_unknown_subject_not_found_witness :
    check_status [("mac-001", "pending")] "unknown-machine" = "not_found" :=
  C9_unknown_subject_not_found [("mac-001", "pending")] "unknown-machine"
    (by decide)

/-- C10: after any history of `/notify` and `/telegram` operations starting
from the empty store, every stored value is one of `"pending"`,
`"approved"`, `"denied"`, and consequently every status query returns one
of those three strings or `"not_found"`. -/
theorem C10_store_state_invariant (admin : Int) (ops : List Op) (m : String) :
    WellFormed (runOps admin ops)
    ∧ (check_status (runOps admin ops) m = "pending"
        ∨ check_status (runOps admin ops) m = "approved"
        ∨ check_status (runOps admin ops) m = "denied"
        ∨ check_status (runOps admin ops) m = "not_found") := by
  have hwf := wellFormed_runOps admin ops
  refine ⟨hwf, ?_⟩
  rcases dbGet_allowed_or_default (runOps admin ops) m "not_found" hwf with h | h
  · rcases h with h | h | h
    · exact Or.inl h
    · exact Or.inr (Or.inl h)
    · exact Or.inr (Or.inr (Or.inl h))
  · exact Or.inr (Or.inr (Or.inr h))
